import Mathlib

/-!
Verification of the database lifecycle layer of DocuChatAPI.

The Python source is shallowly embedded: every external effect (the SQL
connection, the Alembic revision reads, the session commit at context exit,
the interactive confirmation input, the settings values) is an explicit
input, and each embedded function mirrors the control flow of the Python
function it is named after.  Exception-raising code returns `Except` /
`Option` values; dynamic parts of formatted error strings are abstracted to
fixed prefixes (no claim depends on the exact text).
-/

namespace DocuChat

/-- Structured error value as constructed at the `raise DatabaseException(...)`
sites of `src/database/db_manager.py` and `manage.py` (keyword arguments
message, error_code, details, stack_trace). -/
structure DbError where
  message : String
  error_code : String
  details : Option String := none
  stack_trace : Option String := none
deriving DecidableEq

/-- Environment for the revision reads of `MigrationManager`
(`src/database/migrations/migration_manager.py`): either the pair
(current database revision, script-directory head revision), or the
exception text when the database or the script directory cannot be read. -/
structure MigEnv where
  revs : Except String (Option String × Option String)

/-- Embeds `MigrationManager.get_current_revision`: the recorded revision on
success, and `None` when the read fails (the method catches every exception
and returns `None`). -/
def get_current_revision (m : MigEnv) : Option String :=
  match m.revs with
  | .ok (cur, _) => cur
  | .error _ => none

/-- Embeds `MigrationManager.check_pending_migrations`: compares the database's
current revision with the script directory's head and returns their
disequality; any exception inside the method is caught and `False` is
returned. -/
def check_pending_migrations (m : MigEnv) : Bool :=
  match m.revs with
  | .ok (cur, head) => cur != head
  | .error _ => false

/-- Environment of one run of `DatabaseEngine.health_check`
(`src/database/db_manager.py`): outcome of each external interaction the
method performs, in program order. -/
structure HealthEnv where
  /-- Whether `self._is_initialized` holds, so `get_session` does not raise. -/
  initialized : Bool
  /-- Whether `SELECT 1` succeeds. -/
  connectivityOk : Bool
  /-- Result of the `information_schema.tables` query: the table names found,
  or the exception text. -/
  tablesResult : Except String (List String)
  /-- Result of constructing `MigrationManager()` inside the migration block:
  the revision-read environment, or the exception text. -/
  migInit : Except String MigEnv
  /-- Whether the size/connection metrics query succeeds. -/
  metricsOk : Bool
  /-- Whether the session commit performed at `async with` exit succeeds. -/
  commitOk : Bool

/-- Shape of the dict returned by `DatabaseEngine.health_check`.  A check or
metric that was never written is `none`. -/
structure HealthInfo where
  healthy : Bool
  connectivity : Option Bool
  core_tables : Option Bool
  migrations_current : Option Bool
  current_revision : Option (Option String)
  pending_migrations : Option Bool
  existing_tables : Option (List String)
  errors : List String
deriving DecidableEq

/-- Empty health dict as initialised at the top of `health_check`. -/
def emptyHealthInfo : HealthInfo :=
  { healthy := false
    connectivity := none
    core_tables := none
    migrations_current := none
    current_revision := none
    pending_migrations := none
    existing_tables := none
    errors := [] }

/-- Embeds `DatabaseEngine.health_check`.  Mirrors the Python control flow:
`get_session` failure is caught by the outer `except` (nothing recorded);
connectivity failure records the check and returns early (the session commit
still runs at `with`-exit); the core-table, migration and metrics blocks each
catch their own exceptions; overall health is computed as the AND of the
recorded connectivity and core-table checks; finally a failing commit at
`with`-exit lands in the outer `except`, which forces `healthy := false`. -/
def health_check (env : HealthEnv) : HealthInfo :=
  if !env.initialized then
    { emptyHealthInfo with errors := ["Health check failed: engine not initialized"] }
  else if !env.connectivityOk then
    let info := { emptyHealthInfo with
                  connectivity := some false
                  errors := ["Connectivity failed"] }
    if !env.commitOk then
      { info with errors := info.errors ++ ["Health check failed: commit error"] }
    else info
  else
    let info1 := { emptyHealthInfo with connectivity := some true }
    let info2 :=
      match env.tablesResult with
      | .ok ts =>
          let info := { info1 with
                        core_tables := some (decide (3 ≤ ts.length))
                        existing_tables := some ts }
          if ts.length < 3 then
            { info with errors := info.errors ++ ["Missing tables"] }
          else info
      | .error e =>
          { info1 with
            core_tables := some false
            errors := info1.errors ++ ["Table check failed: " ++ e] }
    let info3 :=
      match env.migInit with
      | .ok m =>
          let pending := check_pending_migrations m
          let info := { info2 with
                        migrations_current := some (!pending)
                        current_revision := some (get_current_revision m)
                        pending_migrations := some pending }
          if pending then
            { info with errors := info.errors ++ ["Pending migrations detected"] }
          else info
      | .error e =>
          { info2 with
            migrations_current := some false
            errors := info2.errors ++ ["Migration check failed: " ++ e] }
    let info4 :=
      if !env.metricsOk then
        { info3 with errors := info3.errors ++ ["Metrics collection failed"] }
      else info3
    let info5 :=
      { info4 with healthy := info4.connectivity.getD false && info4.core_tables.getD false }
    if !env.commitOk then
      { info5 with
        healthy := false
        errors := info5.errors ++ ["Health check failed: commit error"] }
    else info5

/-- Subscription plan row as declared in `src/database/models/plan.py`
(UUIDs abstracted to naturals, `DECIMAL(10,2)` amounts to integer cents). -/
structure PlanRow where
  id : Nat
  name : String
  token_limit_daily : Int
  document_limit : Int
  session_limit : Int
  price_monthly : Int
  is_active : Bool
deriving DecidableEq

/-- User row as declared in `src/database/models/user_model.py`. -/
structure UserRow where
  id : Nat
  username : String
  email : String
  hashed_password : String
  plan_id : Nat
  total_tokens_used : Int
  is_active : Bool
  email_verified : Bool
deriving DecidableEq

/-- Database state seen by the seeding routines: the plan and user tables plus
a fresh-id counter standing for UUID generation. -/
structure SeedDB where
  plans : List PlanRow
  users : List UserRow
  nextId : Nat
deriving DecidableEq

/-- Default free plan inserted by `DatabaseSeeder.seed_plans`. -/
def freePlan (id : Nat) : PlanRow :=
  { id := id, name := "free", token_limit_daily := 10000, document_limit := 5,
    session_limit := 1, price_monthly := 0, is_active := true }

/-- Embeds `DatabaseSeeder.seed_plans`: counts the rows of the plan table and
skips the insert when the count is positive; otherwise inserts the default
plan list (one `free` plan). -/
def seed_plans (db : SeedDB) : SeedDB :=
  if 0 < db.plans.length then db
  else { db with plans := db.plans ++ [freePlan db.nextId], nextId := db.nextId + 1 }

/-- Embeds the `SELECT id FROM plan WHERE name = 'free' LIMIT 1` lookup of
`create_test_user`. -/
def findFreePlanId (db : SeedDB) : Option Nat :=
  (db.plans.find? (fun p => p.name == "free")).map (fun p => p.id)

/-- Embeds `DatabaseSeeder.create_test_user`: raises `NO_FREE_PLAN_FOUND` when
no `free` plan exists, counts users with the given email and skips the insert
when the count is positive, otherwise inserts the test user. -/
def create_test_user (username email hashed : String) (db : SeedDB) :
    Except DbError SeedDB :=
  match findFreePlanId db with
  | none =>
      .error { message := "Free plan not found", error_code := "NO_FREE_PLAN_FOUND" }
  | some pid =>
      if 0 < (db.users.filter (fun u => u.email == email)).length then .ok db
      else
        .ok { db with
              users := db.users ++
                [{ id := db.nextId, username := username, email := email,
                   hashed_password := hashed, plan_id := pid,
                   total_tokens_used := 0, is_active := true,
                   email_verified := true }]
              nextId := db.nextId + 1 }

/-- Database state left behind by one run of the seed routine
(`DatabaseSeeder.seed_all`, i.e. `seed_plans` followed by `create_test_user`
with its default arguments).  When `create_test_user` raises, the plan stage
has already committed, so the resulting state is the post-`seed_plans`
state. -/
def seedRun (db : SeedDB) : SeedDB :=
  match create_test_user "TestUser" "test@example.com" "hashed" (seed_plans db) with
  | .ok db2 => db2
  | .error _ => seed_plans db

/-- State of `DatabaseEngine` visible to `get_session`: the initialization
flag and how many sessions the connection has handed out. -/
structure EngineState where
  is_initialized : Bool
  sessions_created : Nat
deriving DecidableEq

/-- Embeds the entry of `DatabaseEngine.get_session`: raises
`DB_ENGINE_NOT_INIT` when the engine is not initialized, before any session
is created; otherwise a new session is created.  The first component is the
engine state after the call. -/
def get_session (st : EngineState) : EngineState × Except DbError Nat :=
  if !st.is_initialized then
    (st, .error { message := "Database engine has not been initialized",
                  error_code := "DB_ENGINE_NOT_INIT" })
  else
    ({ st with sessions_created := st.sessions_created + 1 }, .ok st.sessions_created)

/-- Database-table state acted on by `DatabaseEngine.drop_tables`. -/
structure TableState where
  tables : List String
deriving DecidableEq

/-- Embeds `DatabaseEngine.drop_tables`: when the `DB_SAFETY_ENABLED` setting
is true it raises `DB_SAFETY_ENABLED` before anything is dropped; otherwise
the drop either removes every table or fails with `TABLE_DROP_FAILED`
(`dropSucceeds` is the outcome of the underlying `drop_all` call). -/
def drop_tables (safetyEnabled dropSucceeds : Bool) (st : TableState) :
    TableState × Option DbError :=
  if safetyEnabled then
    (st, some { message := "Drop all tables operation denied",
                error_code := "DB_SAFETY_ENABLED",
                details := some "An attempt to delete all database tables was detected" })
  else if dropSucceeds then ({ tables := [] }, none)
  else (st, some { message := "Table dropping failed",
                   error_code := "TABLE_DROP_FAILED" })

/-- Outcome of the `db reset` CLI branch. -/
inductive ResetOutcome where
  | exceptionRaised (e : DbError)
  | cancelled
  | resetExecuted
deriving DecidableEq

/-- Embeds the `db reset` branch of `manage.py` (lines 193-208): without
`--confirm` a `NO_DB_RESET_CONFIRMATION` exception is raised; with it, the
interactive input must equal "DELETE-ALL-DATA" or the reset is cancelled;
only then is `reset_database` invoked. -/
def runResetCommand (confirm : Bool) (userInput : String) : ResetOutcome :=
  if !confirm then
    .exceptionRaised { message := "No database reset confirmation provided",
                       error_code := "NO_DB_RESET_CONFIRMATION",
                       details := some "Use: python manage.py db reset --confirm" }
  else if userInput == "DELETE-ALL-DATA" then .resetExecuted
  else .cancelled

/-- Exception classes distinguished by the `except` clauses of `run` in
`manage.py` (lines 210-229). -/
inductive RunException where
  | databaseException (e : DbError)
  | ioError
  | keyboardInterrupt
  | otherException
deriving DecidableEq

/-- Embeds the `try/except/finally` of `run` in `manage.py`: given the
exception (if any) escaping the executed subcommand body, returns the process
exit code together with the fact that the `finally` cleanup ran. -/
def manageRun (raised : Option RunException) : Nat × Bool :=
  match raised with
  | none => (0, true)
  | some (.databaseException _) => (1, true)
  | some .ioError => (1, true)
  | some .keyboardInterrupt => (0, true)
  | some .otherException => (1, true)

/-- Exception escaping the `db reset` subcommand body, derived from
`runResetCommand` and the outcome of `reset_database` when it runs. -/
def resetCommandException (confirm : Bool) (input : String) (resetOk : Bool) :
    Option RunException :=
  match runResetCommand confirm input with
  | .exceptionRaised e => some (.databaseException e)
  | .cancelled => none
  | .resetExecuted =>
      if resetOk then none
      else some (.databaseException { message := "Databased failed to reset",
                                      error_code := "DB_RESET_FAILED" })

/-- Steps of the database setup flow, as events of an execution trace. -/
inductive Step where
  | migInfra
  | engineInit
  | createTables
  | seed
  | healthCheckStep
  | createMigration
  | applyMigrationsStep
  | engineShutdown
  | cleanup
deriving DecidableEq

/-- Outcome environment for one run of the full setup flow
(`setup_database.py`): whether each underlying operation succeeds.  Failures
of `create_initial_migration` are tolerated by `main` and `show_status`
catches its own errors, so neither needs a flag. -/
structure SetupEnv where
  migInfraOk : Bool
  engineInitOk : Bool
  createTablesOk : Bool
  seedOk : Bool
  healthHealthy : Bool
  applyMigrationsOk : Bool

/-- Trace of `DatabaseManager.setup_database(with_seed_data)` together with
its success flag: initialize, create tables, optionally seed, then health
check; on any failure the `except` block shuts the engine down and
re-raises. -/
def setup_database_trace (withSeed : Bool) (env : SetupEnv) : List Step × Bool :=
  if !env.engineInitOk then ([.engineInit, .engineShutdown], false)
  else if !env.createTablesOk then
    ([.engineInit, .createTables, .engineShutdown], false)
  else if withSeed && !env.seedOk then
    ([.engineInit, .createTables, .seed, .engineShutdown], false)
  else
    let pre := [.engineInit, .createTables] ++ (if withSeed then [.seed] else [])
    if !env.healthHealthy then (pre ++ [.healthCheckStep, .engineShutdown], false)
    else (pre ++ [.healthCheckStep], true)

/-- Trace of the full (non-reset) setup flow of `main` in
`setup_database.py`: migration infrastructure, then `initialize_database`,
then the tolerated `create_initial_migration` (which re-initializes the
engine), then `apply_migrations`, then `show_status` (which performs a health
check); the `finally` block always runs the orchestrator cleanup. -/
def orchestratorMainTrace (noSeed : Bool) (env : SetupEnv) : List Step :=
  .migInfra ::
    (if !env.migInfraOk then [.cleanup]
     else
       let p := setup_database_trace (!noSeed) env
       p.1 ++
         (if !p.2 then [.cleanup]
          else
            [.engineInit, .createMigration] ++
              (if !env.applyMigrationsOk then [.applyMigrationsStep, .cleanup]
               else [.applyMigrationsStep, .healthCheckStep, .cleanup])))

/-- Step `x` occurs strictly before a later occurrence of step `y` in the
trace. -/
def occursBefore (x y : Step) : List Step → Bool
  | [] => false
  | a :: tr => (a == x && tr.contains y) || occursBefore x y tr

/-- Embeds `DatabaseSetupOrchestrator.apply_migrations`: queries
`check_pending_migrations` and runs the upgrade only when it reports pending
migrations.  Returns whether the upgrade step ran, and the exception when the
upgrade itself fails. -/
def apply_migrations (m : MigEnv) (upgradeOk : Bool) : Bool × Option DbError :=
  if check_pending_migrations m then
    if upgradeOk then (true, none)
    else (true, some { message := "Database upgrade failed.",
                       error_code := "DB_UPDATE_FAILED" })
  else (false, none)

/-- Keyword parameters accepted by `DatabaseException.__init__` as declared in
`src/utils/api_exceptions.py` lines 533-539 (besides `self`). -/
def databaseExceptionParams : List String :=
  ["operation", "error_code", "details", "stack_trace"]

/-- Keyword parameters accepted by `fastapi.HTTPException.__init__`, the
method that `super(ApiException, self).__init__` resolves to for a
`DatabaseException` instance (the next class after `ApiException` in its
method resolution order). -/
def httpExceptionParams : List String := ["status_code", "detail", "headers"]

/-- Python keyword binding: a call with keyword arguments `kwargs` against a
parameter list `params` raises `TypeError` exactly when some keyword is not a
declared parameter (none of the involved signatures takes a `**kwargs`
catch-all). -/
def kwargCallRaisesTypeError (params kwargs : List String) : Bool :=
  !(kwargs.all (fun k => params.contains k))

/-- Keyword arguments of the `raise DatabaseException(...)` call in
`DatabaseManager.setup_database` (`src/database/db_manager.py` line 487). -/
def setupDatabaseRaiseKwargs : List String := ["message", "error_code"]

/-- Keyword arguments that `DatabaseException.__init__` itself forwards via
`super(ApiException, self).__init__(...)` (lines 546-550). -/
def databaseExceptionSuperKwargs : List String :=
  ["error_detail", "status_code", "message"]

/-- Attributes stored on the exception by `ApiException.__init__` together
with those of `HTTPException`. -/
def apiExceptionStoredAttrs : List String :=
  ["error_response", "status_code", "detail", "headers"]

/-- Attributes read from a caught `DatabaseException` at the CLI boundary
(`manage.py` lines 211-215). -/
def manageCliReadAttrs : List String := ["message", "error_detail"]

/-- Check constraints declared on the plan table (`plan.py`,
`__table_args__`): every numeric limit and the price are non-negative. -/
def planSatisfiesChecks (p : PlanRow) : Bool :=
  decide (0 ≤ p.token_limit_daily) && decide (0 ≤ p.document_limit) &&
  decide (0 ≤ p.session_limit) && decide (0 ≤ p.price_monthly)

/-- Embeds the `@validates` hook `User.validate_tokens`: assigning a negative
value to `total_tokens_used` raises `ValueError`. -/
def validate_tokens (tokens : Int) : Except String Int :=
  if tokens < 0 then .error "Token count cannot be negative" else .ok tokens

/-- Insert into the plan table, enforcing the declared check constraints and
the unique constraint on `plan.name`. -/
def insertPlan (ps : List PlanRow) (p : PlanRow) : Except String (List PlanRow) :=
  if !planSatisfiesChecks p then .error "check constraint violated"
  else if ps.any (fun q => q.name == p.name) then
    .error "unique constraint violated on plan.name"
  else .ok (ps ++ [p])

/-- Insert into the user table: the `total_tokens_used` validator runs on
assignment, and the unique constraints on `user.email` and `user.username`
are enforced. -/
def insertUser (us : List UserRow) (u : UserRow) : Except String (List UserRow) :=
  match validate_tokens u.total_tokens_used with
  | .error e => .error e
  | .ok _ =>
      if us.any (fun v => v.email == u.email) then
        .error "unique constraint violated on user.email"
      else if us.any (fun v => v.username == u.username) then
        .error "unique constraint violated on user.username"
      else .ok (us ++ [u])

/-- Invariant of the plan table: every row satisfies the check constraints
and plan names are unique. -/
def PlanTableOk (ps : List PlanRow) : Prop :=
  (∀ p ∈ ps, planSatisfiesChecks p = true) ∧ (ps.map (fun p => p.name)).Nodup

/-- Invariant of the user table: token counters are non-negative, and emails
and usernames are unique. -/
def UserTableOk (us : List UserRow) : Prop :=
  (∀ u ∈ us, 0 ≤ u.total_tokens_used) ∧
  (us.map (fun u => u.email)).Nodup ∧ (us.map (fun u => u.username)).Nodup

/-- Health-check environment in which every check succeeds but the session
commit at context-manager exit fails. -/
def commitFailEnv : HealthEnv :=
  { initialized := true
    connectivityOk := true
    tablesResult := .ok ["chat_session", "plan", "user"]
    migInit := .ok ⟨.ok (some "abc123", some "abc123")⟩
    metricsOk := true
    commitOk := false }

/-- Health-check environment in which every interaction succeeds. -/
def allOkEnv : HealthEnv :=
  { initialized := true
    connectivityOk := true
    tablesResult := .ok ["chat_session", "plan", "user"]
    migInit := .ok ⟨.ok (some "abc123", some "abc123")⟩
    metricsOk := true
    commitOk := true }

/-- Test user row matching the defaults of `create_test_user`. -/
def testUserRow : UserRow :=
  { id := 1, username := "TestUser", email := "test@example.com",
    hashed_password := "hashed", plan_id := 0, total_tokens_used := 0,
    is_active := true, email_verified := true }

/-- Concrete already-seeded database used to witness the seeding theorems. -/
def seedWitnessDb : SeedDB :=
  { plans := [freePlan 0], users := [testUserRow], nextId := 2 }

theorem seed_plans_length_pos (db : SeedDB) : 0 < (seed_plans db).plans.length := by
  unfold seed_plans
  split
  · assumption
  · simp

theorem seed_plans_of_pos (db : SeedDB) (h : 0 < db.plans.length) :
    seed_plans db = db := by
  unfold seed_plans
  simp [h]

theorem create_test_user_ok_plans (u e h : String) (db db2 : SeedDB)
    (hok : create_test_user u e h db = .ok db2) : db2.plans = db.plans := by
  unfold create_test_user at hok
  rcases hfind : findFreePlanId db with _ | pid <;> simp only [hfind] at hok
  · cases hok
  · by_cases hc : 0 < (db.users.filter (fun x => x.email == e)).length
    · rw [if_pos hc] at hok
      cases hok
      rfl
    · rw [if_neg hc] at hok
      cases hok
      rfl

theorem create_test_user_error_find (u e h : String) (db : SeedDB) (err : DbError)
    (herr : create_test_user u e h db = .error err) : findFreePlanId db = none := by
  rcases hfind : findFreePlanId db with _ | pid
  · rfl
  · exfalso
    unfold create_test_user at herr
    simp only [hfind] at herr
    by_cases hc : 0 < (db.users.filter (fun x => x.email == e)).length
    · rw [if_pos hc] at herr
      cases herr
    · rw [if_neg hc] at herr
      cases herr

theorem seedRun_plans_pos (db : SeedDB) : 0 < (seedRun db).plans.length := by
  unfold seedRun
  cases hctu : create_test_user "TestUser" "test@example.com" "hashed" (seed_plans db) with
  | ok db2 =>
      simp only [hctu]
      rw [create_test_user_ok_plans _ _ _ _ _ hctu]
      exact seed_plans_length_pos db
  | error e =>
      simp only [hctu]
      exact seed_plans_length_pos db

theorem seedRun_free_implies_user (db : SeedDB) (pid : Nat)
    (hfind : findFreePlanId (seedRun db) = some pid) :
    0 < ((seedRun db).users.filter
      (fun u => u.email == "test@example.com")).length := by
  unfold seedRun at hfind ⊢
  cases hctu : create_test_user "TestUser" "test@example.com" "hashed" (seed_plans db) with
  | ok db2 =>
      simp only [hctu] at hfind ⊢
      unfold create_test_user at hctu
      rcases hfind2 : findFreePlanId (seed_plans db) with _ | pid2 <;>
        simp only [hfind2] at hctu
      · cases hctu
      · by_cases hc : 0 <
            ((seed_plans db).users.filter (fun x => x.email == "test@example.com")).length
        · rw [if_pos hc] at hctu
          cases hctu
          exact hc
        · rw [if_neg hc] at hctu
          cases hctu
          simp [List.filter_append]
  | error e =>
      simp only [hctu] at hfind
      rw [create_test_user_error_find _ _ _ _ _ hctu] at hfind
      cases hfind

theorem seedRun_fixed (s : SeedDB) (hpos : 0 < s.plans.length)
    (huser : ∀ pid, findFreePlanId s = some pid →
      0 < (s.users.filter (fun x => x.email == "test@example.com")).length) :
    seedRun s = s := by
  unfold seedRun
  rw [seed_plans_of_pos _ hpos]
  cases hfind : findFreePlanId s with
  | none => simp [create_test_user, hfind]
  | some pid => simp [create_test_user, hfind, huser pid hfind]

theorem seedRun_idem (db : SeedDB) : seedRun (seedRun db) = seedRun db :=
  seedRun_fixed (seedRun db) (seedRun_plans_pos db)
    (fun pid h => seedRun_free_implies_user db pid h)

/-- C2: seeding is idempotent: running the seed routine twice leaves the same
plan and user row counts as running it once, and each routine counts existing
rows before inserting: `seed_plans` skips when the plan table is non-empty,
and `create_test_user` skips when a user with the given email already
exists. -/
theorem seeding_idempotent (db : SeedDB) :
    ((seedRun (seedRun db)).plans.length = (seedRun db).plans.length ∧
     (seedRun (seedRun db)).users.length = (seedRun db).users.length) ∧
    (0 < db.plans.length → seed_plans db = db) ∧
    (∀ u e h pid, findFreePlanId db = some pid →
      0 < (db.users.filter (fun x => x.email == e)).length →
      create_test_user u e h db = .ok db) := by
  refine ⟨by rw [seedRun_idem]; exact ⟨rfl, rfl⟩, seed_plans_of_pos db, ?_⟩
  intro u e h pid hfind hcnt
  simp [create_test_user, hfind, hcnt]

/-- Witness for C2 at a concrete already-seeded database. -/
theorem seeding_idempotent_witness :
    ((seedRun (seedRun seedWitnessDb)).plans.length =
        (seedRun seedWitnessDb).plans.length ∧
     (seedRun (seedRun seedWitnessDb)).users.length =
        (seedRun seedWitnessDb).users.length) ∧
    seed_plans seedWitnessDb = seedWitnessDb ∧
    create_test_user "TestUser" "test@example.com" "hashed" seedWitnessDb =
      .ok seedWitnessDb := by
  obtain ⟨h1, h2, h3⟩ := seeding_idempotent seedWitnessDb
  exact ⟨h1, h2 (by decide),
    h3 "TestUser" "test@example.com" "hashed" 0 (by decide) (by decide)⟩

/-- C4: the `db reset` subcommand without `--confirm` raises an exception
before `reset_database` is invoked; with `--confirm` but an interactive input
other than DELETE-ALL-DATA the reset is cancelled; and `drop_tables` under an
enabled `DB_SAFETY_ENABLED` setting raises a `DatabaseException` with code
`DB_SAFETY_ENABLED` before any drop, leaving the table state unchanged. -/
theorem reset_confirmation_and_drop_safety (input : String) (st : TableState)
    (dropSucceeds : Bool) (hin : input ≠ "DELETE-ALL-DATA") :
    (∀ i : String, runResetCommand false i ≠ .resetExecuted) ∧
    runResetCommand false input =
      .exceptionRaised
        { message := "No database reset confirmation provided",
          error_code := "NO_DB_RESET_CONFIRMATION",
          details := some "Use: python manage.py db reset --confirm" } ∧
    runResetCommand true input = .cancelled ∧
    (drop_tables true dropSucceeds st).1 = st ∧
    ((drop_tables true dropSucceeds st).2.map (fun e => e.error_code)) =
      some "DB_SAFETY_ENABLED" := by
  refine ⟨fun i => by simp [runResetCommand], by simp [runResetCommand], ?_, ?_, ?_⟩
  · simp [runResetCommand, hin]
  · simp [drop_tables]
  · simp [drop_tables]

/-- Witness for C4 at a concrete wrong confirmation input and table state. -/
theorem reset_confirmation_and_drop_safety_witness :
    (∀ i : String, runResetCommand false i ≠ .resetExecuted) ∧
    runResetCommand false "yes" =
      .exceptionRaised
        { message := "No database reset confirmation provided",
          error_code := "NO_DB_RESET_CONFIRMATION",
          details := some "Use: python manage.py db reset --confirm" } ∧
    runResetCommand true "yes" = .cancelled ∧
    (drop_tables true true ⟨["user", "plan"]⟩).1 = ⟨["user", "plan"]⟩ ∧
    ((drop_tables true true ⟨["user", "plan"]⟩).2.map (fun e => e.error_code)) =
      some "DB_SAFETY_ENABLED" :=
  reset_confirmation_and_drop_safety "yes" ⟨["user", "plan"]⟩ true (by decide)

/-- C5 (code bug): the claim says the `DatabaseException` constructor accepts
a message and that message, error code, details and stack trace are readable
on the raised exception at the CLI boundary.  In the code,
`DatabaseException.__init__` declares no `message` parameter, so the wrapping
calls of the database layer (such as the one in
`DatabaseManager.setup_database`) raise `TypeError`; the keywords the
constructor itself forwards via `super(ApiException, self).__init__` are
rejected by the resolved superclass constructor; and the attributes the CLI
reads (`exc.message`, `exc.error_detail`) are not among those the exception
class hierarchy stores. -/
theorem databaseException_constructor_mismatch :
    kwargCallRaisesTypeError databaseExceptionParams setupDatabaseRaiseKwargs = true ∧
    databaseExceptionParams.contains "message" = false ∧
    kwargCallRaisesTypeError httpExceptionParams databaseExceptionSuperKwargs = true ∧
    manageCliReadAttrs.all (fun a => apiExceptionStoredAttrs.contains a) = false := by
  decide

/-- C6: a db subcommand failing with any non-KeyboardInterrupt exception makes
the process exit with code 1, and a subcommand completing without error makes
it exit with code 0; shown also for the composed `db reset` body. -/
theorem manage_exit_codes (ex : RunException) (hex : ex ≠ .keyboardInterrupt) :
    (manageRun (some ex)).1 = 1 ∧
    (manageRun none).1 = 0 ∧
    (∀ confirm resetOk : Bool, ∀ input : String,
      (manageRun (resetCommandException confirm input resetOk)).1 =
        (if resetCommandException confirm input resetOk = none then 0 else 1)) := by
  refine ⟨?_, rfl, ?_⟩
  · cases ex with
    | databaseException e => rfl
    | ioError => rfl
    | keyboardInterrupt => exact absurd rfl hex
    | otherException => rfl
  · intro confirm resetOk input
    unfold resetCommandException runResetCommand
    cases confirm
    · simp [manageRun]
    · by_cases hi : input == "DELETE-ALL-DATA" <;> cases resetOk <;>
        simp [hi, manageRun]

/-- Witness for C6 at a concrete non-KeyboardInterrupt exception. -/
theorem manage_exit_codes_witness :
    (manageRun (some .ioError)).1 = 1 ∧
    (manageRun none).1 = 0 ∧
    (∀ confirm resetOk : Bool, ∀ input : String,
      (manageRun (resetCommandException confirm input resetOk)).1 =
        (if resetCommandException confirm input resetOk = none then 0 else 1)) :=
  manage_exit_codes .ioError (by decide)

/-- C9: calling `DatabaseEngine.get_session` while the engine is not
initialized raises a `DatabaseException` with error code `DB_ENGINE_NOT_INIT`
before any session is created, and the engine state is unchanged. -/
theorem get_session_uninitialized (st : EngineState)
    (h : st.is_initialized = false) :
    (get_session st).1 = st ∧
      (get_session st).2 =
        .error { message := "Database engine has not been initialized",
                 error_code := "DB_ENGINE_NOT_INIT" } := by
  simp [get_session, h]

/-- Witness for C9 at a concrete uninitialized engine state. -/
theorem get_session_uninitialized_witness :
    (get_session ⟨false, 0⟩).1 = ⟨false, 0⟩ ∧
      (get_session ⟨false, 0⟩).2 =
        .error { message := "Database engine has not been initialized",
                 error_code := "DB_ENGINE_NOT_INIT" } :=
  get_session_uninitialized ⟨false, 0⟩ rfl

/-- C10: when any exception occurs inside `check_pending_migrations`, the
method returns `False` (no pending migrations) rather than propagating, and
`apply_migrations` consequently skips the upgrade step in those failure
cases. -/
theorem check_pending_swallows_errors (m : MigEnv) (e : String)
    (h : m.revs = .error e) :
    check_pending_migrations m = false ∧
    ∀ upgradeOk, apply_migrations m upgradeOk = (false, none) := by
  constructor
  · simp [check_pending_migrations, h]
  · intro upgradeOk
    simp [apply_migrations, check_pending_migrations, h]

/-- Witness for C10 at a concrete failing revision read. -/
theorem check_pending_swallows_errors_witness :
    check_pending_migrations ⟨.error "db unreachable"⟩ = false ∧
    ∀ upgradeOk,
      apply_migrations ⟨.error "db unreachable"⟩ upgradeOk = (false, none) :=
  check_pending_swallows_errors ⟨.error "db unreachable"⟩ "db unreachable" rfl

/-- C1 (counterexample): a run of `health_check` in which the connectivity
and core-table checks both pass but the session commit at context exit fails
returns `healthy = false`, so `healthy` does not equal the AND of the
connectivity and core-table checks on every run. -/
theorem healthy_not_always_and_of_checks :
    (health_check commitFailEnv).connectivity = some true ∧
    (health_check commitFailEnv).core_tables = some true ∧
    (health_check commitFailEnv).healthy = false := by
  refine ⟨rfl, by decide, rfl⟩

/-- C1 (amended): provided the health-check session block exits cleanly (the
final commit succeeds), `healthy` equals the AND of the recorded connectivity
and core-table checks; whenever the connectivity check is recorded as failed,
`healthy` is false regardless of every other check; and the migration and
metrics findings never affect `healthy`. -/
theorem healthy_and_of_critical_checks (env : HealthEnv) :
    (env.commitOk = true →
      (health_check env).healthy =
        ((health_check env).connectivity.getD false &&
         (health_check env).core_tables.getD false)) ∧
    ((health_check env).connectivity = some false →
      (health_check env).healthy = false) ∧
    (∀ mi me,
      (health_check { env with migInit := mi, metricsOk := me }).healthy =
        (health_check env).healthy) := by
  refine ⟨?_, ?_, ?_⟩
  · intro hco
    cases hini : env.initialized
    · simp [health_check, emptyHealthInfo, hini]
    · cases hconn : env.connectivityOk
      · simp [health_check, emptyHealthInfo, hini, hconn, hco]
      · rcases htr : env.tablesResult with ts | e1 <;>
          rcases hmi : env.migInit with m | e2 <;>
            cases hme : env.metricsOk <;>
              simp [health_check, emptyHealthInfo, hini, hconn, hco, htr, hmi, hme,
                apply_ite HealthInfo.healthy, apply_ite HealthInfo.connectivity,
                apply_ite HealthInfo.core_tables]
  · intro hcf
    cases hini : env.initialized
    · simp [health_check, emptyHealthInfo, hini] at hcf
    · cases hconn : env.connectivityOk
      · cases hco : env.commitOk <;> simp [health_check, emptyHealthInfo, hini, hconn, hco]
      · rcases htr : env.tablesResult with ts | e1 <;>
          rcases hmi : env.migInit with m | e2 <;>
            cases hme : env.metricsOk <;> cases hco : env.commitOk <;>
              simp [health_check, emptyHealthInfo, hini, hconn, htr, hmi, hme, hco,
                apply_ite HealthInfo.connectivity] at hcf
  · intro mi me
    cases hini : env.initialized
    · simp [health_check, emptyHealthInfo, hini]
    · cases hconn : env.connectivityOk
      · cases hco : env.commitOk <;> simp [health_check, emptyHealthInfo, hini, hconn, hco]
      · rcases htr : env.tablesResult with ts | e1 <;>
          rcases hmi : env.migInit with m | e2 <;>
            rcases mi with m2 | e3 <;>
              cases hme : env.metricsOk <;> cases me <;> cases hco : env.commitOk <;>
                simp [health_check, emptyHealthInfo, hini, hconn, htr, hmi, hme, hco,
                  apply_ite HealthInfo.healthy, apply_ite HealthInfo.connectivity,
                  apply_ite HealthInfo.core_tables]


/-- Witness for the amended C1 at a concrete environment whose commit
succeeds. -/
theorem healthy_and_of_critical_checks_witness :
    (health_check allOkEnv).healthy =
      ((health_check allOkEnv).connectivity.getD false &&
       (health_check allOkEnv).core_tables.getD false) :=
  (healthy_and_of_critical_checks allOkEnv).1 rfl

/-- C3: when both revisions can be read, `check_pending_migrations` returns
true iff the recorded current revision differs from the head revision, and
`health_check` surfaces the result as the `pending_migrations` metric and the
`migrations_current` check (its negation) whenever the migration block is
reached (engine initialized, connectivity succeeded, `MigrationManager`
constructed). -/
theorem pending_iff_revision_mismatch (m : MigEnv) (cur head : Option String)
    (h : m.revs = .ok (cur, head)) (env : HealthEnv)
    (hini : env.initialized = true) (hconn : env.connectivityOk = true)
    (hmig : env.migInit = .ok m) :
    (check_pending_migrations m = true ↔ cur ≠ head) ∧
    (health_check env).pending_migrations = some (check_pending_migrations m) ∧
    (health_check env).migrations_current = some (!check_pending_migrations m) := by
  refine ⟨by simp [check_pending_migrations, h, bne_iff_ne], ?_, ?_⟩ <;>
  · rcases htr : env.tablesResult with ts | e1 <;>
      cases hme : env.metricsOk <;> cases hco : env.commitOk <;>
        simp [health_check, emptyHealthInfo, hini, hconn, hmig, htr, hme, hco,
          apply_ite HealthInfo.pending_migrations,
          apply_ite HealthInfo.migrations_current]

/-- Witness for C3 at a concrete environment with mismatching revisions. -/
theorem pending_iff_revision_mismatch_witness :
    (check_pending_migrations ⟨.ok (some "a", some "b")⟩ = true ↔
      (some "a" : Option String) ≠ some "b") ∧
    (health_check { allOkEnv with
        migInit := .ok ⟨.ok (some "a", some "b")⟩ }).pending_migrations =
      some (check_pending_migrations ⟨.ok (some "a", some "b")⟩) ∧
    (health_check { allOkEnv with
        migInit := .ok ⟨.ok (some "a", some "b")⟩ }).migrations_current =
      some (!check_pending_migrations ⟨.ok (some "a", some "b")⟩) :=
  pending_iff_revision_mismatch ⟨.ok (some "a", some "b")⟩ (some "a") (some "b")
    rfl { allOkEnv with migInit := .ok ⟨.ok (some "a", some "b")⟩ } rfl rfl rfl

/-- C7: in every run of the full setup flow, seeding never occurs before
table creation, the health check never occurs before seeding, the engine is
never initialized before the migration infrastructure is set up, and the
cleanup step runs, last, on every exit path; the `finally` of `run` in
`manage.py` likewise always performs cleanup. -/
theorem setup_order_and_cleanup (noSeed : Bool) (env : SetupEnv) :
    occursBefore .seed .createTables (orchestratorMainTrace noSeed env) = false ∧
    occursBefore .healthCheckStep .seed (orchestratorMainTrace noSeed env) = false ∧
    occursBefore .engineInit .migInfra (orchestratorMainTrace noSeed env) = false ∧
    (orchestratorMainTrace noSeed env).getLast? = some .cleanup ∧
    (∀ raised, (manageRun raised).2 = true) := by
  have h4 : occursBefore .seed .createTables (orchestratorMainTrace noSeed env) = false ∧
      occursBefore .healthCheckStep .seed (orchestratorMainTrace noSeed env) = false ∧
      occursBefore .engineInit .migInfra (orchestratorMainTrace noSeed env) = false ∧
      (orchestratorMainTrace noSeed env).getLast? = some .cleanup := by
    obtain ⟨a, b, c, d, e, f⟩ := env
    cases noSeed <;> cases a <;> cases b <;> cases c <;> cases d <;>
      cases e <;> cases f <;> decide
  refine ⟨h4.1, h4.2.1, h4.2.2.1, h4.2.2.2, ?_⟩
  intro raised
  rcases raised with _ | ex
  · rfl
  · cases ex <;> rfl

/-- C8: the declared data-model invariants: a plan insert that succeeds
preserves non-negative limits/price and unique plan names; a user insert that
succeeds preserves non-negative token counters and unique emails and
usernames; assigning a negative value to `total_tokens_used` is rejected with
an error; and a plan row violating a check constraint is rejected. -/
theorem model_invariants (ps ps' : List PlanRow) (p : PlanRow)
    (us us' : List UserRow) (u : UserRow) (t : Int)
    (hps : PlanTableOk ps) (hus : UserTableOk us)
    (hp : insertPlan ps p = .ok ps') (hu : insertUser us u = .ok us')
    (ht : t < 0) :
    PlanTableOk ps' ∧ UserTableOk us' ∧
    validate_tokens t = .error "Token count cannot be negative" ∧
    (∀ q qs, planSatisfiesChecks q = false →
      insertPlan qs q = .error "check constraint violated") := by
  refine ⟨?_, ?_, by simp [validate_tokens, ht], ?_⟩
  · unfold insertPlan at hp
    cases hchk : planSatisfiesChecks p <;> simp only [hchk] at hp
    · simp at hp
    · cases hname : ps.any (fun q => q.name == p.name) <;>
        simp only [hname] at hp
      · simp at hp
        obtain ⟨hall, hnodup⟩ := hps
        subst hp
        constructor
        · intro q hq
          rcases List.mem_append.mp hq with hq | hq
          · exact hall q hq
          · rw [List.mem_singleton.mp hq]
            exact hchk
        · rw [List.map_append]
          rw [List.nodup_append]
          refine ⟨hnodup, List.nodup_singleton _, ?_⟩
          have hnot : p.name ∉ ps.map (fun r => r.name) := by
            intro hmem
            rcases List.mem_map.mp hmem with ⟨r, hr, hrname⟩
            have hany : ps.any (fun q => q.name == p.name) = true :=
              List.any_eq_true.mpr ⟨r, hr, by simp [hrname]⟩
            rw [hany] at hname
            cases hname
          simpa [List.disjoint_singleton] using hnot
      · simp at hp
  · unfold insertUser at hu
    cases hv : validate_tokens u.total_tokens_used <;> simp only [hv] at hu
    · cases hu
    · have htok : (0 : Int) ≤ u.total_tokens_used := by
        unfold validate_tokens at hv
        by_cases hlt : u.total_tokens_used < 0
        · rw [if_pos hlt] at hv
          cases hv
        · exact le_of_not_lt hlt
      cases hem : us.any (fun v => v.email == u.email) <;> simp only [hem] at hu
      · cases hun : us.any (fun v => v.username == u.username) <;>
          simp only [hun] at hu
        · simp at hu
          obtain ⟨htoks, hemail, huser⟩ := hus
          subst hu
          refine ⟨?_, ?_, ?_⟩
          · intro v hv2
            rcases List.mem_append.mp hv2 with hv2 | hv2
            · exact htoks v hv2
            · rw [List.mem_singleton.mp hv2]
              exact htok
          · rw [List.map_append, List.nodup_append]
            refine ⟨hemail, List.nodup_singleton _, ?_⟩
            have hnot : u.email ∉ us.map (fun v => v.email) := by
              intro hmem
              rcases List.mem_map.mp hmem with ⟨v, hvmem, hvm⟩
              have hany : us.any (fun v => v.email == u.email) = true :=
                List.any_eq_true.mpr ⟨v, hvmem, by simp [hvm]⟩
              rw [hany] at hem
              cases hem
            simpa [List.disjoint_singleton] using hnot
          · rw [List.map_append, List.nodup_append]
            refine ⟨huser, List.nodup_singleton _, ?_⟩
            have hnot : u.username ∉ us.map (fun v => v.username) := by
              intro hmem
              rcases List.mem_map.mp hmem with ⟨v, hvmem, hvm⟩
              have hany : us.any (fun v => v.username == u.username) = true :=
                List.any_eq_true.mpr ⟨v, hvmem, by simp [hvm]⟩
              rw [hany] at hun
              cases hun
            simpa [List.disjoint_singleton] using hnot
        · cases hu
      · cases hu
  · intro q qs hq
    simp [insertPlan, hq]

/-- Witness for C8: concrete inserts into empty tables and a concrete
negative token assignment. -/
theorem model_invariants_witness :
    PlanTableOk [freePlan 0] ∧ UserTableOk [testUserRow] ∧
    validate_tokens (-1) = .error "Token count cannot be negative" ∧
    (∀ q qs, planSatisfiesChecks q = false →
      insertPlan qs q = .error "check constraint violated") :=
  model_invariants [] [freePlan 0] (freePlan 0) [] [testUserRow] testUserRow
    (-1) (by simp [PlanTableOk]) (by simp [UserTableOk]) rfl rfl (by decide)

end DocuChat
